import Mathlib

/-!
# Verification of the PyJEM bridge service core

Shallow embedding of `src/pyjem_service/__init__.py` (class `PyJEMService`).

Numbers are modelled as exact rationals.  The Python module uses
`math.pi`, the IEEE-754 double nearest to π; we embed it as the exact
rational value of that double, `884279719003555 / 2^48`, so that all
definitions stay executable.  Integer-valued fields (focus, brightness,
spot size, magnification) are `ℤ`/`ℕ`; positions and angles are `ℚ`.

Hardware calls are modelled by a behaviour record (`HwBehavior`) saying
which calls succeed, and every handler returns, besides its state, the
trace of hardware calls it issued, the number of warnings logged and the
exception (if any) that escaped — mirroring the Python control flow of
`scope_callback`, `motion_callback`, `stage_status` and `run_once`.
-/

namespace PyJEMService

/-- Exact rational value of Python's `math.pi` (the IEEE-754 double
`0x400921FB54442D18`), used by the module via `from math import pi`. -/
def piQ : ℚ := 884279719003555 / 281474976710656

/-- Default `trans_tol` from `__init__` (device units). -/
def default_trans_tol : ℚ := 60

/-- Default `rot_tol` from `__init__`: `0.2 * pi / 180` (radians). -/
def default_rot_tol : ℚ := 0.2 * piQ / 180

/-- The stage setpoints `self.x, self.y, self.z, self.tx, self.ty`:
last commanded position; tilt stored in radians. -/
structure StageSetpoint where
  x : ℚ
  y : ℚ
  z : ℚ
  tx : ℚ
  ty : ℚ
  deriving DecidableEq, Repr

/-- One readback of `self.stage.GetPos()`: positions in device units,
tilt angles in degrees (the hardware protocol). -/
structure Readback where
  x : ℚ
  y : ℚ
  z : ℚ
  tx : ℚ
  ty : ℚ
  deriving DecidableEq, Repr

/-- `PyJEMService.in_motion` (lines 198–208): reads `GetPos` and returns
`any` of the five per-axis comparisons `abs(s - p) > tol` — translation
axes against `trans_tol`, tilt axes against `rot_tol`.  The readback is
passed explicitly (it is the value `GetPos` returned in that call). -/
def in_motion (trans_tol rot_tol : ℚ) (sp : StageSetpoint) (rb : Readback) : Bool :=
  ([ decide (|sp.x - rb.x| > trans_tol),
     decide (|sp.y - rb.y| > trans_tol),
     decide (|sp.z - rb.z| > trans_tol) ]
    ++
   [ decide (|sp.tx - rb.tx| > rot_tol),
     decide (|sp.ty - rb.ty| > rot_tol) ]).any id

/-- Seeding of the setpoints in `__init__` (lines 93–95): positions are
taken verbatim from the initial `GetPos` readback, tilt readbacks
(degrees) are converted to radians via `* pi / 180`. -/
def init_setpoint (rb : Readback) : StageSetpoint :=
  { x := rb.x, y := rb.y, z := rb.z
    tx := rb.tx * piQ / 180
    ty := rb.ty * piQ / 180 }

/-! ## The scope command handler (`scope_callback`, lines 129–161) -/

/-- `MAG_MODES` (lines 11–15), as a lookup on the optional `mag_mode`
field: `None` or an unknown string has no entry (Python raises
`KeyError` on `self.MAG_MODES[msg.mag_mode]`). -/
def MAG_MODES : Option String → Option ℕ
  | some "MAG1" => some 0
  | some "MAG2" => some 1
  | some "LM" => some 2
  | _ => none

/-- `MAG_TABLE` (lines 16–45): standard-magnification value → selector index. -/
def MAG_TABLE : List (ℕ × ℕ) :=
  [(2000, 0), (2500, 1), (3000, 2), (4000, 3), (5000, 4), (6000, 5),
   (8000, 6), (10000, 7), (12000, 8), (15000, 9), (20000, 10), (25000, 11),
   (30000, 12), (40000, 13), (50000, 14), (60000, 15), (80000, 16),
   (100000, 17), (120000, 18), (150000, 19), (200000, 20), (250000, 21),
   (300000, 22), (500000, 23), (600000, 24), (800000, 25), (1000000, 26),
   (1200000, 27)]

/-- `LOWMAG_TABLE` (lines 46–61): low-magnification value → selector index. -/
def LOWMAG_TABLE : List (ℕ × ℕ) :=
  [(50, 0), (100, 1), (120, 2), (150, 3), (200, 4), (250, 5), (300, 6),
   (400, 7), (500, 8), (600, 9), (800, 10), (1000, 11), (1200, 12),
   (1500, 13)]

/-- A `scope.command` message: every field optional (`None` = absent). -/
structure ScopeMsg where
  focus : Option ℤ := none
  brightness : Option ℤ := none
  mag : Option ℕ := none
  mag_mode : Option String := none
  spot_size : Option ℤ := none
  beam_offset : Option (ℚ × ℚ) := none
  screen : Option String := none
  deriving DecidableEq, Repr

/-- One hardware call issued by a handler, with its argument as the
Python code computes it. -/
inductive HwCall where
  | setObjFocus (delta : ℤ)
  | setBrightness (delta : ℤ)
  | selectFunctionMode (idx : ℕ)
  | setSelector (idx : ℕ)
  | selectSpotSize (s : ℤ)
  | setCLA1 (a b : ℚ)
  | setBeamBlank (b : Bool)
  | setX (v : ℚ)
  | setY (v : ℚ)
  | setZ (v : ℚ)
  | setTiltXAngle (deg : ℚ)
  | setTiltYAngle (deg : ℚ)
  deriving DecidableEq, Repr

/-- The Python exceptions the handler can raise or propagate. -/
inductive PyError where
  /-- `TEM3.TEM3Error`, the transient hardware timeout. -/
  | tem3
  /-- `KeyError` from `MAG_MODES[msg.mag_mode]`. -/
  | keyError
  /-- `AssertionError` from `assert msg.mag in mag_table`. -/
  | assertionError
  /-- any other exception escaping a hardware call. -/
  | hwFailure
  deriving DecidableEq, Repr

/-- Which hardware calls succeed: one flag per set-call, and the outcome
of the n-th `SelectFunctionMode` attempt within one command
(`modeOk n = false` means that attempt raises `TEM3Error`). -/
structure HwBehavior where
  focusOk : Bool := true
  brightnessOk : Bool := true
  modeOk : ℕ → Bool := fun _ => true
  selectorOk : Bool := true
  spotOk : Bool := true
  cla1Ok : Bool := true
  blankOk : Bool := true

/-- Hardware on which every call succeeds. -/
def allOk : HwBehavior := {}

/-- Execution context of one `scope_callback` invocation: the tracked
`ScopeState` fields (`self.focus`, `self.brightness`), the trace of
hardware calls issued so far, the number of warnings logged, the
exception that escaped (if any), and whether the final `scope_status`
publication was reached. -/
structure Ctx where
  focus : ℤ
  brightness : ℤ
  calls : List HwCall := []
  warnings : ℕ := 0
  err : Option PyError := none
  statusSent : Bool := false
  deriving DecidableEq, Repr

/-- Run `f` unless an exception has already escaped (Python: the rest of
the handler body is skipped once an exception propagates). -/
def skipOnErr (f : Ctx → Ctx) (c : Ctx) : Ctx :=
  if c.err = none then f c else c

/-- Lines 131–132: `if msg.focus is not None: SetObjFocus(msg.focus - self.focus)`.
Note the tracked focus is NOT updated here. -/
def focusStep (hw : HwBehavior) (msg : ScopeMsg) (c : Ctx) : Ctx :=
  match msg.focus with
  | none => c
  | some f =>
    let c := { c with calls := c.calls ++ [HwCall.setObjFocus (f - c.focus)] }
    if hw.focusOk then c else { c with err := some PyError.hwFailure }

/-- Lines 133–135: brightness delta call, then the tracked brightness is
updated immediately. -/
def brightnessStep (hw : HwBehavior) (msg : ScopeMsg) (c : Ctx) : Ctx :=
  match msg.brightness with
  | none => c
  | some b =>
    let c := { c with calls := c.calls ++ [HwCall.setBrightness (b - c.brightness)] }
    if hw.brightnessOk then { c with brightness := b }
    else { c with err := some PyError.hwFailure }

/-- Lines 139–148: `retry = 3; while retry: try SelectFunctionMode …`.
`attempt` counts the calls made so far in this loop (indexing
`hw.modeOk`), `r` is the Python `retry` counter.  A `TEM3Error` is
logged as a warning; with `retry == 1` it is re-raised.  Note the loop
has no break on success: it runs until `retry` reaches 0. -/
def magLoop (hw : HwBehavior) (idx : ℕ) : ℕ → ℕ → Ctx → Ctx
  | _, 0, c => c
  | attempt, r + 1, c =>
    let c := { c with calls := c.calls ++ [HwCall.selectFunctionMode idx] }
    if hw.modeOk attempt then magLoop hw idx (attempt + 1) r c
    else
      let c := { c with warnings := c.warnings + 1 }
      if r = 0 then { c with err := some PyError.tem3 }
      else magLoop hw idx (attempt + 1) r c

/-- Lines 136–149: table selection by `mag_mode == "LM"`, the
`assert msg.mag in mag_table` membership check, the `KeyError` on an
unrecognised `mag_mode` (raised when evaluating `MAG_MODES[msg.mag_mode]`,
before the hardware call of the first loop iteration), the retry loop,
and finally `SetSelector(mag_table[msg.mag])`. -/
def magStep (hw : HwBehavior) (msg : ScopeMsg) (c : Ctx) : Ctx :=
  match msg.mag with
  | none => c
  | some m =>
    let mag_table := if msg.mag_mode = some "LM" then LOWMAG_TABLE else MAG_TABLE
    match mag_table.lookup m with
    | none => { c with err := some PyError.assertionError }
    | some sel =>
      match MAG_MODES msg.mag_mode with
      | none => { c with err := some PyError.keyError }
      | some idx =>
        let c := magLoop hw idx 0 3 c
        if c.err = none then
          let c := { c with calls := c.calls ++ [HwCall.setSelector sel] }
          if hw.selectorOk then c else { c with err := some PyError.hwFailure }
        else c

/-- Lines 150–151: `SelectSpotSize`. -/
def spotStep (hw : HwBehavior) (msg : ScopeMsg) (c : Ctx) : Ctx :=
  match msg.spot_size with
  | none => c
  | some s =>
    let c := { c with calls := c.calls ++ [HwCall.selectSpotSize s] }
    if hw.spotOk then c else { c with err := some PyError.hwFailure }

/-- Lines 152–153: `SetCLA1(*msg.beam_offset)`. -/
def offsetStep (hw : HwBehavior) (msg : ScopeMsg) (c : Ctx) : Ctx :=
  match msg.beam_offset with
  | none => c
  | some p =>
    let c := { c with calls := c.calls ++ [HwCall.setCLA1 p.1 p.2] }
    if hw.cla1Ok then c else { c with err := some PyError.hwFailure }

/-- Lines 154–155: `SetBeamBlank(msg.screen == "down")`. -/
def screenStep (hw : HwBehavior) (msg : ScopeMsg) (c : Ctx) : Ctx :=
  match msg.screen with
  | none => c
  | some s =>
    let c := { c with calls := c.calls ++ [HwCall.setBeamBlank (s == "down")] }
    if hw.blankOk then c else { c with err := some PyError.hwFailure }

/-- Lines 156–161: `time.sleep(BEAM_MOVE_TIME)` (no state effect), then
the tracked focus and brightness are (re)written from the message, and
`scope_status()` publishes — these run only when no exception escaped
earlier in the body. -/
def recordStep (msg : ScopeMsg) (c : Ctx) : Ctx :=
  let c := match msg.focus with
           | none => c
           | some f => { c with focus := f }
  let c := match msg.brightness with
           | none => c
           | some b => { c with brightness := b }
  { c with statusSent := true }

/-- `PyJEMService.scope_callback` (lines 129–161), sequencing the steps
in source order.  `focus0`/`brightness0` are the tracked `ScopeState`
on entry; the result carries the final tracked state, the hardware-call
trace, the warning count and the escaped exception, if any. -/
def scope_callback (hw : HwBehavior) (msg : ScopeMsg)
    (focus0 brightness0 : ℤ) : Ctx :=
  let c : Ctx := { focus := focus0, brightness := brightness0 }
  let c := focusStep hw msg c
  let c := skipOnErr (brightnessStep hw msg) c
  let c := skipOnErr (magStep hw msg) c
  let c := skipOnErr (spotStep hw msg) c
  let c := skipOnErr (offsetStep hw msg) c
  let c := skipOnErr (screenStep hw msg) c
  skipOnErr (recordStep msg) c

/-- Hardware on which the first `SelectFunctionMode` attempt succeeds
and every later attempt raises `TEM3Error`; all other calls succeed. -/
def modeSucceedsThenTimesOut : HwBehavior :=
  { modeOk := fun n => n == 0 }

/-- Hardware on which `SetBrightness` fails and everything else succeeds. -/
def brightnessFails : HwBehavior :=
  { brightnessOk := false }

/-- Hardware on which `SelectSpotSize` fails and everything else
succeeds — a call *after* focus and brightness in the handler's order. -/
def spotFails : HwBehavior :=
  { spotOk := false }

/-! ## Stage command handlers (`motion_callback` / `rotation_callback`) -/

/-- A `stage.motion.command` message (lines 106–117): each axis optional. -/
structure MotionMsg where
  x : Option ℚ := none
  y : Option ℚ := none
  z : Option ℚ := none
  deriving DecidableEq, Repr

/-- A `stage.rotation.command` message (lines 119–127): angles in radians. -/
structure RotationMsg where
  angle_x : Option ℚ := none
  angle_y : Option ℚ := none
  deriving DecidableEq, Repr

/-- Result of a stage handler: the new setpoints, the hardware calls
issued (in order) and the value written to `self.was_in_motion`. -/
structure MotionResult where
  sp : StageSetpoint
  calls : List HwCall
  was_in_motion : Bool
  deriving DecidableEq, Repr

/-- `PyJEMService.motion_callback` (lines 106–117): sets the sticky
latch, then for each present axis issues the absolute set call and
updates the matching setpoint; absent axes are not touched. -/
def motion_callback (msg : MotionMsg) (sp : StageSetpoint) : MotionResult :=
  let r : MotionResult := { sp := sp, calls := [], was_in_motion := true }
  let r := match msg.x with
           | none => r
           | some v => { r with sp := { r.sp with x := v },
                                calls := r.calls ++ [HwCall.setX v] }
  let r := match msg.y with
           | none => r
           | some v => { r with sp := { r.sp with y := v },
                                calls := r.calls ++ [HwCall.setY v] }
  match msg.z with
  | none => r
  | some v => { r with sp := { r.sp with z := v },
                       calls := r.calls ++ [HwCall.setZ v] }

/-- `PyJEMService.rotation_callback` (lines 119–127): wire angles are
radians, the hardware call takes degrees (`angle * 180 / pi`), and the
setpoint stores the radian value. -/
def rotation_callback (msg : RotationMsg) (sp : StageSetpoint) : MotionResult :=
  let r : MotionResult := { sp := sp, calls := [], was_in_motion := true }
  let r := match msg.angle_x with
           | none => r
           | some a => { r with sp := { r.sp with tx := a },
                                calls := r.calls ++ [HwCall.setTiltXAngle (a * 180 / piQ)] }
  match msg.angle_y with
  | none => r
  | some a => { r with sp := { r.sp with ty := a },
                       calls := r.calls ++ [HwCall.setTiltYAngle (a * 180 / piQ)] }

/-! ## Status publication (`stage_status`, lines 179–196) -/

/-- Python's `int()` on a rational value: truncation toward zero. -/
def pyInt (q : ℚ) : ℤ := if 0 ≤ q then ⌊q⌋ else ⌈q⌉

/-- A message published on a stage status topic. -/
inductive PubMsg where
  /-- `stage.motion.status`: integer-truncated coordinates. -/
  | motionStatus (x y z : ℤ) (in_motion : Bool)
  /-- `stage.rotation.status`: angles in radians, constant eucentric height. -/
  | rotationStatus (angle_x angle_y eucentric_height : ℚ) (in_motion : Bool)
  deriving DecidableEq, Repr

/-- The `in_motion` flag carried by a published stage-status message. -/
def PubMsg.inMotionFlag : PubMsg → Bool
  | motionStatus _ _ _ b => b
  | rotationStatus _ _ _ b => b

/-- `PyJEMService.stage_status` (lines 179–196).  The hardware is read
 through a stream of `GetPos` readbacks `rbs`, consumed from index `k`:
the call at line 181 returns `rbs k` (published coordinates/angles) and
the `GetPos` inside the `in_motion` property evaluation at line 187
returns `rbs (k+1)`.  The verdict is computed once (`in_motion := …`)
and the same boolean is sent in both messages; the function returns the
published messages and the next stream index. -/
def stage_status (trans_tol rot_tol : ℚ) (sp : StageSetpoint)
    (rbs : ℕ → Readback) (k : ℕ) : List PubMsg × ℕ :=
  let rb := rbs k
  let inm := in_motion trans_tol rot_tol sp (rbs (k + 1))
  ([PubMsg.motionStatus (pyInt rb.x) (pyInt rb.y) (pyInt rb.z) inm,
    PubMsg.rotationStatus (rb.tx * piQ / 180) (rb.ty * piQ / 180) 0 inm],
   k + 2)

/-! ## The control loop (`run_once`, lines 210–216) -/

/-- One `run_once` tick (lines 210–216): `inm` is the value the
`in_motion` property returned on this tick, `was` is `self.was_in_motion`
on entry.  Returns the chosen stage-status period, the new value of
`self.was_in_motion` (reset to exactly this tick's `in_motion`), and the
two publish decisions for the given clock and timestamps. -/
def run_once (inm was : Bool) (now last_stage last_scope : ℚ) :
    ℚ × Bool × Bool × Bool :=
  let period := if inm || was then 1 / 50 else 1
  (period, inm, decide (now - last_stage > period),
   decide (now - last_scope > 1))

/-- The latch (`self.was_in_motion`) before tick `n`, for a run of
`run_once` ticks whose `in_motion` evaluations are `inm` and whose
initial latch is `w0`.  The pacing logic does not depend on the clock,
so the trace fixes the time arguments. -/
def latch_trace (inm : ℕ → Bool) (w0 : Bool) : ℕ → Bool
  | 0 => w0
  | n + 1 => (run_once (inm n) (latch_trace inm w0 n) 0 0 0).2.1

/-- The stage-status period chosen on tick `n` of the same run. -/
def period_trace (inm : ℕ → Bool) (w0 : Bool) (n : ℕ) : ℚ :=
  (run_once (inm n) (latch_trace inm w0 n) 0 0 0).1

/-! ## Helper lemmas -/

lemma in_motion_true_iff (trans_tol rot_tol : ℚ)
    (sp : StageSetpoint) (rb : Readback) :
    in_motion trans_tol rot_tol sp rb = true ↔
      (|sp.x - rb.x| > trans_tol ∨ |sp.y - rb.y| > trans_tol ∨
       |sp.z - rb.z| > trans_tol ∨ |sp.tx - rb.tx| > rot_tol ∨
       |sp.ty - rb.ty| > rot_tol) := by
  simp [in_motion, List.any, or_assoc]

lemma in_motion_false_iff (trans_tol rot_tol : ℚ)
    (sp : StageSetpoint) (rb : Readback) :
    in_motion trans_tol rot_tol sp rb = false ↔
      (|sp.x - rb.x| ≤ trans_tol ∧ |sp.y - rb.y| ≤ trans_tol ∧
       |sp.z - rb.z| ≤ trans_tol ∧ |sp.tx - rb.tx| ≤ rot_tol ∧
       |sp.ty - rb.ty| ≤ rot_tol) := by
  rw [← Bool.not_eq_true]
  simp [in_motion, List.any, or_assoc, not_or, not_lt]

lemma skipOnErr_of_none {f : Ctx → Ctx} {c : Ctx} (h : c.err = none) :
    skipOnErr f c = f c := by
  simp [skipOnErr, h]

lemma skipOnErr_of_some {f : Ctx → Ctx} {c : Ctx} (h : c.err ≠ none) :
    skipOnErr f c = c := by
  simp [skipOnErr, h]

lemma magLoop_state (hw : HwBehavior) (idx attempt r : ℕ) (c : Ctx) :
    (magLoop hw idx attempt r c).focus = c.focus ∧
    (magLoop hw idx attempt r c).brightness = c.brightness ∧
    (magLoop hw idx attempt r c).statusSent = c.statusSent := by
  induction r generalizing attempt c with
  | zero => simp [magLoop]
  | succ r ih =>
    by_cases h : hw.modeOk attempt
    · simpa [magLoop, h] using
        ih (attempt + 1) { c with calls := c.calls ++ [HwCall.selectFunctionMode idx] }
    · by_cases hr : r = 0
      · simp [magLoop, h, hr]
      · simpa [magLoop, h, hr] using
          ih (attempt + 1)
            { c with calls := c.calls ++ [HwCall.selectFunctionMode idx],
                     warnings := c.warnings + 1 }

lemma focusStep_state (hw : HwBehavior) (msg : ScopeMsg) (c : Ctx) :
    (focusStep hw msg c).focus = c.focus ∧
    (focusStep hw msg c).brightness = c.brightness ∧
    (focusStep hw msg c).statusSent = c.statusSent := by
  cases h : msg.focus with
  | none => simp [focusStep, h]
  | some f => by_cases hf : hw.focusOk <;> simp [focusStep, h, hf]

/-- The focus step raises no exception exactly when the focus field is
absent or the `SetObjFocus` call succeeds. -/
lemma focusStep_err_iff (hw : HwBehavior) (msg : ScopeMsg) (c : Ctx)
    (h : c.err = none) :
    (focusStep hw msg c).err = none ↔ (msg.focus = none ∨ hw.focusOk = true) := by
  cases hfo : msg.focus with
  | none => simp [focusStep, hfo, h]
  | some f => by_cases hok : hw.focusOk <;> simp [focusStep, hfo, hok, h]

lemma magStep_state (hw : HwBehavior) (msg : ScopeMsg) (c : Ctx) :
    (magStep hw msg c).focus = c.focus ∧
    (magStep hw msg c).brightness = c.brightness ∧
    (magStep hw msg c).statusSent = c.statusSent := by
  cases h : msg.mag with
  | none => simp [magStep, h]
  | some m =>
    cases ht : (if msg.mag_mode = some "LM" then LOWMAG_TABLE else MAG_TABLE).lookup m with
    | none => simp [magStep, h, ht]
    | some sel =>
      cases hm : MAG_MODES msg.mag_mode with
      | none => simp [magStep, h, ht, hm]
      | some idx =>
        have hml := magLoop_state hw idx 0 3 c
        by_cases he : (magLoop hw idx 0 3 c).err = none
        · by_cases hs : hw.selectorOk <;>
            simp [magStep, h, ht, hm, he, hs, hml.1, hml.2.1, hml.2.2]
        · simp [magStep, h, ht, hm, he, hml.1, hml.2.1, hml.2.2]

lemma spotStep_state (hw : HwBehavior) (msg : ScopeMsg) (c : Ctx) :
    (spotStep hw msg c).focus = c.focus ∧
    (spotStep hw msg c).brightness = c.brightness ∧
    (spotStep hw msg c).statusSent = c.statusSent := by
  cases h : msg.spot_size with
  | none => simp [spotStep, h]
  | some s => by_cases hs : hw.spotOk <;> simp [spotStep, h, hs]

lemma offsetStep_state (hw : HwBehavior) (msg : ScopeMsg) (c : Ctx) :
    (offsetStep hw msg c).focus = c.focus ∧
    (offsetStep hw msg c).brightness = c.brightness ∧
    (offsetStep hw msg c).statusSent = c.statusSent := by
  cases h : msg.beam_offset with
  | none => simp [offsetStep, h]
  | some p => by_cases hp : hw.cla1Ok <;> simp [offsetStep, h, hp]

lemma screenStep_state (hw : HwBehavior) (msg : ScopeMsg) (c : Ctx) :
    (screenStep hw msg c).focus = c.focus ∧
    (screenStep hw msg c).brightness = c.brightness ∧
    (screenStep hw msg c).statusSent = c.statusSent := by
  cases h : msg.screen with
  | none => simp [screenStep, h]
  | some s => by_cases hb : hw.blankOk <;> simp [screenStep, h, hb]

lemma skipOnErr_state (f : Ctx → Ctx)
    (hf : ∀ c, (f c).focus = c.focus ∧ (f c).brightness = c.brightness ∧
               (f c).statusSent = c.statusSent) (c : Ctx) :
    (skipOnErr f c).focus = c.focus ∧
    (skipOnErr f c).brightness = c.brightness ∧
    (skipOnErr f c).statusSent = c.statusSent := by
  unfold skipOnErr
  split
  · exact hf c
  · exact ⟨rfl, rfl, rfl⟩

/-- The four steps between `brightnessStep` and `recordStep` never
change the tracked focus, the tracked brightness or the status flag. -/
lemma midChain_state (hw : HwBehavior) (msg : ScopeMsg) (c : Ctx) :
    ((skipOnErr (screenStep hw msg) (skipOnErr (offsetStep hw msg)
        (skipOnErr (spotStep hw msg) (skipOnErr (magStep hw msg) c)))).focus
      = c.focus) ∧
    ((skipOnErr (screenStep hw msg) (skipOnErr (offsetStep hw msg)
        (skipOnErr (spotStep hw msg) (skipOnErr (magStep hw msg) c)))).brightness
      = c.brightness) ∧
    ((skipOnErr (screenStep hw msg) (skipOnErr (offsetStep hw msg)
        (skipOnErr (spotStep hw msg) (skipOnErr (magStep hw msg) c)))).statusSent
      = c.statusSent) := by
  have h1 := skipOnErr_state _ (magStep_state hw msg) c
  have h2 := skipOnErr_state _ (spotStep_state hw msg)
      (skipOnErr (magStep hw msg) c)
  have h3 := skipOnErr_state _ (offsetStep_state hw msg)
      (skipOnErr (spotStep hw msg) (skipOnErr (magStep hw msg) c))
  have h4 := skipOnErr_state _ (screenStep_state hw msg)
      (skipOnErr (offsetStep hw msg)
        (skipOnErr (spotStep hw msg) (skipOnErr (magStep hw msg) c)))
  refine ⟨?_, ?_, ?_⟩
  · rw [h4.1, h3.1, h2.1, h1.1]
  · rw [h4.2.1, h3.2.1, h2.2.1, h1.2.1]
  · rw [h4.2.2, h3.2.2, h2.2.2, h1.2.2]

/-- Once an exception has escaped, the rest of the handler body (the
four middle steps) is skipped. -/
lemma midChain_stuck (hw : HwBehavior) (msg : ScopeMsg) (c : Ctx)
    (h : c.err ≠ none) :
    skipOnErr (screenStep hw msg) (skipOnErr (offsetStep hw msg)
      (skipOnErr (spotStep hw msg) (skipOnErr (magStep hw msg) c))) = c := by
  rw [skipOnErr_of_some h, skipOnErr_of_some h, skipOnErr_of_some h,
      skipOnErr_of_some h]

lemma recordStep_state (msg : ScopeMsg) (c : Ctx) :
    (recordStep msg c).focus = msg.focus.getD c.focus ∧
    (recordStep msg c).brightness = msg.brightness.getD c.brightness ∧
    (recordStep msg c).err = c.err := by
  cases h : msg.focus <;> cases hb : msg.brightness <;>
    simp [recordStep, h, hb]

/-- Evaluation of the first two handler steps when the hardware calls
they issue succeed: the focus delta and brightness calls are recorded in
the trace and the tracked brightness is already updated. -/
lemma firstTwo_steps (hw : HwBehavior) (msg : ScopeMsg) (focus0 brightness0 : ℤ)
    (hf : msg.focus = none ∨ hw.focusOk = true)
    (hb : msg.brightness = none ∨ hw.brightnessOk = true) :
    skipOnErr (brightnessStep hw msg)
      (focusStep hw msg { focus := focus0, brightness := brightness0 }) =
    { focus := focus0,
      brightness := msg.brightness.getD brightness0,
      calls := (match msg.focus with
                | none => []
                | some f => [HwCall.setObjFocus (f - focus0)]) ++
               (match msg.brightness with
                | none => []
                | some b => [HwCall.setBrightness (b - brightness0)]),
      warnings := 0, err := none, statusSent := false } := by
  cases hfo : msg.focus with
  | none =>
    cases hbo : msg.brightness with
    | none => simp [focusStep, brightnessStep, skipOnErr, hfo, hbo]
    | some b =>
      have hbok : hw.brightnessOk = true := hb.resolve_left (by simp [hbo])
      simp [focusStep, brightnessStep, skipOnErr, hfo, hbo, hbok]
  | some f =>
    have hok : hw.focusOk = true := hf.resolve_left (by simp [hfo])
    cases hbo : msg.brightness with
    | none => simp [focusStep, brightnessStep, skipOnErr, hfo, hbo, hok]
    | some b =>
      have hbok : hw.brightnessOk = true := hb.resolve_left (by simp [hbo])
      simp [focusStep, brightnessStep, skipOnErr, hfo, hbo, hok, hbok]

/-- A command carrying only a brightness value, on hardware whose
brightness call succeeds: one delta call `new − current`, tracked
brightness updated, status published. -/
lemma scope_callback_brightness_only (hw : HwBehavior) (f0 b0 b : ℤ)
    (hok : hw.brightnessOk = true) :
    scope_callback hw { brightness := some b } f0 b0 =
      { focus := f0, brightness := b,
        calls := [HwCall.setBrightness (b - b0)],
        warnings := 0, err := none, statusSent := true } := by
  simp [scope_callback, focusStep, brightnessStep, magStep, spotStep,
        offsetStep, screenStep, recordStep, skipOnErr, hok]

/-! ## Claims -/

/-- C1: `in_motion` is true iff at least one of the five axis deviations
`|setpoint - readback|` strictly exceeds its tolerance (`trans_tol` for
x, y, z; `rot_tol` for the two tilt axes), and false exactly when every
deviation is at most its tolerance — the boundary is exclusive and a
single drifting axis suffices. -/
theorem in_motion_iff_some_axis_exceeds (trans_tol rot_tol : ℚ)
    (sp : StageSetpoint) (rb : Readback) :
    (in_motion trans_tol rot_tol sp rb = true ↔
      (|sp.x - rb.x| > trans_tol ∨ |sp.y - rb.y| > trans_tol ∨
       |sp.z - rb.z| > trans_tol ∨ |sp.tx - rb.tx| > rot_tol ∨
       |sp.ty - rb.ty| > rot_tol)) ∧
    (in_motion trans_tol rot_tol sp rb = false ↔
      (|sp.x - rb.x| ≤ trans_tol ∧ |sp.y - rb.y| ≤ trans_tol ∧
       |sp.z - rb.z| ≤ trans_tol ∧ |sp.tx - rb.tx| ≤ rot_tol ∧
       |sp.ty - rb.ty| ≤ rot_tol)) :=
  ⟨in_motion_true_iff trans_tol rot_tol sp rb,
   in_motion_false_iff trans_tol rot_tol sp rb⟩

/-- C2 (amended): the tracked brightness is transactional — it is
updated to the commanded value exactly when its hardware delta call is
reached and succeeds (the focus step before it did not raise and
`SetBrightness` succeeds), and this update persists even when a later
hardware call in the same command fails, while a failed or unreached
apply leaves it at the pre-command value; the tracked focus is not: it
is written only at the end of a fully successful command, so whenever
any exception escapes the handler the tracked focus is exactly the
pre-command value, even when the `SetObjFocus` delta call itself had
already succeeded. -/
theorem scope_state_tracks_last_applied (hw : HwBehavior) (msg : ScopeMsg)
    (focus0 brightness0 : ℤ) :
    ((scope_callback hw msg focus0 brightness0).err ≠ none →
      (scope_callback hw msg focus0 brightness0).focus = focus0) ∧
    ((scope_callback hw msg focus0 brightness0).err = none →
      (scope_callback hw msg focus0 brightness0).focus = msg.focus.getD focus0 ∧
      (scope_callback hw msg focus0 brightness0).brightness =
        msg.brightness.getD brightness0) ∧
    ((scope_callback hw msg focus0 brightness0).brightness =
      if (msg.focus = none ∨ hw.focusOk = true) ∧ hw.brightnessOk = true then
        msg.brightness.getD brightness0
      else brightness0) ∧
    ((scope_callback hw msg focus0 brightness0).brightness = brightness0 ∨
      (msg.brightness = some (scope_callback hw msg focus0 brightness0).brightness ∧
        hw.brightnessOk = true)) := by
  have hsc : scope_callback hw msg focus0 brightness0 =
      skipOnErr (recordStep msg) (skipOnErr (screenStep hw msg)
        (skipOnErr (offsetStep hw msg) (skipOnErr (spotStep hw msg)
          (skipOnErr (magStep hw msg) (skipOnErr (brightnessStep hw msg)
            (focusStep hw msg { focus := focus0, brightness := brightness0 })))))) :=
    rfl
  rw [hsc]
  have h1f : (focusStep hw msg { focus := focus0, brightness := brightness0 }).focus
      = focus0 :=
    (focusStep_state hw msg _).1
  have h1b : (focusStep hw msg { focus := focus0, brightness := brightness0 }).brightness
      = brightness0 :=
    (focusStep_state hw msg _).2.1
  have hfc : (focusStep hw msg { focus := focus0, brightness := brightness0 }).err
      = none ↔ (msg.focus = none ∨ hw.focusOk = true) :=
    focusStep_err_iff hw msg _ rfl
  set c1 := focusStep hw msg { focus := focus0, brightness := brightness0 } with hc1
  by_cases he1 : c1.err = none
  · have hcond : msg.focus = none ∨ hw.focusOk = true := hfc.mp he1
    rw [skipOnErr_of_none he1]
    cases hb : msg.brightness with
    | none =>
      have hb2 : brightnessStep hw msg c1 = c1 := by
        simp [brightnessStep, hb]
      rw [hb2]
      have hm := midChain_state hw msg c1
      by_cases heM : (skipOnErr (screenStep hw msg) (skipOnErr (offsetStep hw msg)
          (skipOnErr (spotStep hw msg) (skipOnErr (magStep hw msg) c1)))).err = none
      · rw [skipOnErr_of_none heM]
        have hr := recordStep_state msg (skipOnErr (screenStep hw msg)
          (skipOnErr (offsetStep hw msg)
            (skipOnErr (spotStep hw msg) (skipOnErr (magStep hw msg) c1))))
        refine ⟨fun h => absurd (hr.2.2.trans heM) h, fun _ => ?_, ?_, Or.inl ?_⟩
        · constructor
          · rw [hr.1, hm.1, h1f]
          · rw [hr.2.1, hm.2.1, h1b, hb]
        · rw [hr.2.1, hm.2.1, h1b, hb]
          simp
        · rw [hr.2.1, hm.2.1, h1b, hb]
          simp
      · rw [skipOnErr_of_some heM]
        refine ⟨fun _ => ?_, fun h => absurd h heM, ?_, Or.inl ?_⟩
        · rw [hm.1, h1f]
        · rw [hm.2.1, h1b]
          simp
        · rw [hm.2.1, h1b]
    | some b =>
      by_cases hbf : hw.brightnessOk
      · have h2e : (brightnessStep hw msg c1).err = c1.err := by
          simp [brightnessStep, hb, hbf]
        have h2f : (brightnessStep hw msg c1).focus = c1.focus := by
          simp [brightnessStep, hb, hbf]
        have h2b : (brightnessStep hw msg c1).brightness = b := by
          simp [brightnessStep, hb, hbf]
        have hm := midChain_state hw msg (brightnessStep hw msg c1)
        by_cases heM : (skipOnErr (screenStep hw msg) (skipOnErr (offsetStep hw msg)
            (skipOnErr (spotStep hw msg)
              (skipOnErr (magStep hw msg) (brightnessStep hw msg c1))))).err = none
        · rw [skipOnErr_of_none heM]
          have hr := recordStep_state msg (skipOnErr (screenStep hw msg)
            (skipOnErr (offsetStep hw msg) (skipOnErr (spotStep hw msg)
              (skipOnErr (magStep hw msg) (brightnessStep hw msg c1)))))
          refine ⟨fun h => absurd (hr.2.2.trans heM) h, fun _ => ?_, ?_, Or.inr ?_⟩
          · constructor
            · rw [hr.1, hm.1, h2f, h1f]
            · rw [hr.2.1, hm.2.1, h2b, hb]
              simp
          · rw [hr.2.1, hm.2.1, h2b, hb, if_pos ⟨hcond, hbf⟩]
            simp
          · refine ⟨?_, hbf⟩
            rw [hr.2.1, hm.2.1, h2b, hb]
            simp
        · rw [skipOnErr_of_some heM]
          refine ⟨fun _ => ?_, fun h => absurd h heM, ?_, Or.inr ?_⟩
          · rw [hm.1, h2f, h1f]
          · rw [hm.2.1, h2b, if_pos ⟨hcond, hbf⟩]
            simp
          · refine ⟨?_, hbf⟩
            rw [hm.2.1, h2b]
      · have h2e : (brightnessStep hw msg c1).err = some PyError.hwFailure := by
          simp [brightnessStep, hb, hbf]
        have h2f : (brightnessStep hw msg c1).focus = c1.focus := by
          simp [brightnessStep, hb, hbf]
        have h2b : (brightnessStep hw msg c1).brightness = c1.brightness := by
          simp [brightnessStep, hb, hbf]
        have h2ne : (brightnessStep hw msg c1).err ≠ none := by
          rw [h2e]; simp
        rw [midChain_stuck hw msg _ h2ne, skipOnErr_of_some h2ne]
        refine ⟨fun _ => ?_, fun h => absurd h h2ne, ?_, Or.inl ?_⟩
        · rw [h2f, h1f]
        · rw [h2b, h1b, if_neg (fun hc => hbf hc.2)]
        · rw [h2b, h1b]
  · have hstop : skipOnErr (recordStep msg) (skipOnErr (screenStep hw msg)
        (skipOnErr (offsetStep hw msg) (skipOnErr (spotStep hw msg)
          (skipOnErr (magStep hw msg) (skipOnErr (brightnessStep hw msg) c1))))) = c1 := by
      simp only [skipOnErr_of_some he1]
    rw [hstop]
    have hnc : ¬(msg.focus = none ∨ hw.focusOk = true) := fun hc => he1 (hfc.mpr hc)
    refine ⟨fun _ => h1f, fun h => absurd h he1, ?_, Or.inl h1b⟩
    rw [if_neg (fun hc => hnc hc.1)]
    exact h1b

/-- C2 (witness): the tracking statement at a concrete input — focus 10,
brightness 5 and spot size 2 commanded from state (0, 0) on hardware
whose spot-size call (after focus and brightness) fails: the command
raises, yet the successfully applied brightness 5 persists in the
tracked state while the focus stays at its pre-command value 0. -/
theorem scope_state_tracks_last_applied_witness :
    ((scope_callback spotFails { focus := some 10, brightness := some 5, spot_size := some 2 } 0 0).err ≠ none →
      (scope_callback spotFails { focus := some 10, brightness := some 5, spot_size := some 2 } 0 0).focus = 0) ∧
    ((scope_callback spotFails { focus := some 10, brightness := some 5, spot_size := some 2 } 0 0).err = none →
      (scope_callback spotFails { focus := some 10, brightness := some 5, spot_size := some 2 } 0 0).focus = Option.getD (some 10) 0 ∧
      (scope_callback spotFails { focus := some 10, brightness := some 5, spot_size := some 2 } 0 0).brightness = Option.getD (some 5) 0) ∧
    ((scope_callback spotFails { focus := some 10, brightness := some 5, spot_size := some 2 } 0 0).brightness =
      if ((some (10 : ℤ) : Option ℤ) = none ∨ spotFails.focusOk = true) ∧
          spotFails.brightnessOk = true then
        Option.getD (some 5) 0
      else 0) ∧
    ((scope_callback spotFails { focus := some 10, brightness := some 5, spot_size := some 2 } 0 0).brightness = 0 ∨
      (some 5 =
        some (scope_callback spotFails { focus := some 10, brightness := some 5, spot_size := some 2 } 0 0).brightness ∧
        spotFails.brightnessOk = true)) :=
  scope_state_tracks_last_applied spotFails
    { focus := some 10, brightness := some 5, spot_size := some 2 } 0 0

/-- C2 (counterexample to the claim as stated): command
`{focus: 10, brightness: 5}` from tracked state (0, 0) on hardware where
`SetObjFocus` succeeds and `SetBrightness` raises.  The focus delta call
`SetObjFocus(10)` was issued and succeeded, a later hardware call in the
same command failed — yet the tracked focus is still 0, not the
successfully applied 10 (it is only written at the end of the handler,
after the point where the exception escapes). -/
theorem scope_focus_not_recorded_counterexample :
    brightnessFails.focusOk = true ∧
    (scope_callback brightnessFails { focus := some 10, brightness := some 5 } 0 0).calls
      = [HwCall.setObjFocus 10, HwCall.setBrightness 5] ∧
    (scope_callback brightnessFails { focus := some 10, brightness := some 5 } 0 0).err
      = some PyError.hwFailure ∧
    (scope_callback brightnessFails { focus := some 10, brightness := some 5 } 0 0).focus
      = 0 := by
  refine ⟨rfl, ?_, rfl, rfl⟩
  decide

/-- C3: the retry loop around `SelectFunctionMode` has no break on
success.  With hardware that never fails, a valid `mag = 2000,
mag_mode = "MAG1"` command still issues the mode-select call three
times; and with hardware whose first attempt succeeds and later attempts
raise the transient timeout, the loop keeps calling, logs two warnings
and re-raises the third attempt's timeout, so the command fails despite
its successful first attempt and the selector is never applied. -/
theorem mag_mode_retry_lacks_break :
    scope_callback allOk { mag := some 2000, mag_mode := some "MAG1" } 0 0 =
      { focus := 0, brightness := 0,
        calls := [HwCall.selectFunctionMode 0, HwCall.selectFunctionMode 0,
                  HwCall.selectFunctionMode 0, HwCall.setSelector 0],
        warnings := 0, err := none, statusSent := true } ∧
    scope_callback modeSucceedsThenTimesOut
        { mag := some 2000, mag_mode := some "MAG1" } 0 0 =
      { focus := 0, brightness := 0,
        calls := [HwCall.selectFunctionMode 0, HwCall.selectFunctionMode 0,
                  HwCall.selectFunctionMode 0],
        warnings := 2, err := some PyError.tem3, statusSent := false } := by
  constructor <;> decide

/-- C4 (counterexample to the claim as stated): the command
`{brightness: 5, mag: 7, mag_mode: "MAG1"}` (7 is not a key of the
standard table) is rejected — but only after the brightness field was
already applied: a hardware call was made and the tracked brightness
mutated from 0 to 5 before the membership check ran. -/
theorem invalid_mag_counterexample :
    (scope_callback allOk { brightness := some 5, mag := some 7, mag_mode := some "MAG1" } 0 0).err = some PyError.assertionError ∧
    (scope_callback allOk { brightness := some 5, mag := some 7, mag_mode := some "MAG1" } 0 0).calls = [HwCall.setBrightness 5] ∧
    (scope_callback allOk { brightness := some 5, mag := some 7, mag_mode := some "MAG1" } 0 0).brightness = 5 := by
  refine ⟨rfl, ?_, rfl⟩
  decide

/-- C4 (amended): a `mag` value absent from the selected table is
rejected with `AssertionError` before any magnification-related
hardware call — no mode-select, no selector, no warning — and the
tracked focus, the status publication and everything after the `mag`
field are untouched; but the fields the handler processes earlier in
its fixed order (focus delta, brightness) have already been applied to
the hardware, and the tracked brightness already updated, when the
rejection happens. -/
theorem invalid_mag_rejected_after_earlier_fields (hw : HwBehavior)
    (msg : ScopeMsg) (focus0 brightness0 : ℤ) (m : ℕ)
    (hm : msg.mag = some m)
    (ht : ((if msg.mag_mode = some "LM" then LOWMAG_TABLE else MAG_TABLE).lookup m)
      = none)
    (hf : msg.focus = none ∨ hw.focusOk = true)
    (hb : msg.brightness = none ∨ hw.brightnessOk = true) :
    (scope_callback hw msg focus0 brightness0).err = some PyError.assertionError ∧
    (scope_callback hw msg focus0 brightness0).calls =
      (match msg.focus with
       | none => []
       | some f => [HwCall.setObjFocus (f - focus0)]) ++
      (match msg.brightness with
       | none => []
       | some b => [HwCall.setBrightness (b - brightness0)]) ∧
    (scope_callback hw msg focus0 brightness0).warnings = 0 ∧
    (scope_callback hw msg focus0 brightness0).focus = focus0 ∧
    (scope_callback hw msg focus0 brightness0).statusSent = false := by
  have hsc : scope_callback hw msg focus0 brightness0 =
      skipOnErr (recordStep msg) (skipOnErr (screenStep hw msg)
        (skipOnErr (offsetStep hw msg) (skipOnErr (spotStep hw msg)
          (skipOnErr (magStep hw msg) (skipOnErr (brightnessStep hw msg)
            (focusStep hw msg { focus := focus0, brightness := brightness0 })))))) :=
    rfl
  rw [hsc, firstTwo_steps hw msg focus0 brightness0 hf hb]
  simp [skipOnErr, magStep, hm, ht]

/-- C4 (witness): the amended statement at the counterexample's input. -/
theorem invalid_mag_rejected_after_earlier_fields_witness :
    (scope_callback allOk { brightness := some 5, mag := some 7, mag_mode := some "MAG1" } 0 0).err = some PyError.assertionError ∧
    (scope_callback allOk { brightness := some 5, mag := some 7, mag_mode := some "MAG1" } 0 0).calls = [HwCall.setBrightness (5 - 0)] ∧
    (scope_callback allOk { brightness := some 5, mag := some 7, mag_mode := some "MAG1" } 0 0).warnings = 0 ∧
    (scope_callback allOk { brightness := some 5, mag := some 7, mag_mode := some "MAG1" } 0 0).focus = 0 ∧
    (scope_callback allOk { brightness := some 5, mag := some 7, mag_mode := some "MAG1" } 0 0).statusSent = false :=
  invalid_mag_rejected_after_earlier_fields allOk
    { brightness := some 5, mag := some 7, mag_mode := some "MAG1" } 0 0 7
    rfl rfl (Or.inl rfl) (Or.inr rfl)

/-- C6: evaluation of `in_motion` right after `__init__` seeding, the
readback unchanged since.  With every axis at zero the service reports
no motion, but with a 1-degree x-tilt in the initial readback it reports
`in_motion = true`: `__init__` stores the tilt setpoint in radians
(`1 * pi / 180 ≈ 0.01745`) while `in_motion` compares it against the
raw degree readback (`1`), so the deviation `≈ 0.9825` exceeds
`rot_tol ≈ 0.00349`. -/
theorem startup_in_motion_unit_mismatch :
    in_motion default_trans_tol default_rot_tol
      (init_setpoint ⟨0, 0, 0, 0, 0⟩) ⟨0, 0, 0, 0, 0⟩ = false ∧
    in_motion default_trans_tol default_rot_tol
      (init_setpoint ⟨0, 0, 0, 1, 0⟩) ⟨0, 0, 0, 1, 0⟩ = true := by
  constructor
  · rw [in_motion_false_iff]
    norm_num [init_setpoint, default_trans_tol, default_rot_tol, piQ]
  · rw [in_motion_true_iff]
    norm_num [init_setpoint, default_rot_tol, piQ, abs_sub_comm, abs_of_pos]

/-- C7: delta correctness of the cached absolute brightness — a
successful brightness command issues the hardware delta
`new − previously applied` and records the new absolute value, so two
consecutive commands `b₁` then `b₂` from cache `b0` issue deltas
`b₁ − b0` then `b₂ − b₁` (never `b₂ − b0`). -/
theorem brightness_delta_is_difference (hw : HwBehavior) (f0 b0 b₁ b₂ : ℤ)
    (hok : hw.brightnessOk = true) :
    (scope_callback hw { brightness := some b₁ } f0 b0).calls
      = [HwCall.setBrightness (b₁ - b0)] ∧
    (scope_callback hw { brightness := some b₁ } f0 b0).brightness = b₁ ∧
    (scope_callback hw { brightness := some b₁ } f0 b0).err = none ∧
    (scope_callback hw { brightness := some b₂ }
        (scope_callback hw { brightness := some b₁ } f0 b0).focus
        (scope_callback hw { brightness := some b₁ } f0 b0).brightness).calls
      = [HwCall.setBrightness (b₂ - b₁)] ∧
    (scope_callback hw { brightness := some b₂ }
        (scope_callback hw { brightness := some b₁ } f0 b0).focus
        (scope_callback hw { brightness := some b₁ } f0 b0).brightness).brightness
      = b₂ := by
  have h1 := scope_callback_brightness_only hw f0 b0 b₁ hok
  have h2 := scope_callback_brightness_only hw f0 b₁ b₂ hok
  refine ⟨?_, ?_, ?_, ?_, ?_⟩ <;> simp [h1, h2]

/-- C7 (witness): `{brightness: 10}` then `{brightness: 25}` from cache
0 issue hardware deltas `+10` then `+15`. -/
theorem brightness_delta_is_difference_witness :
    (scope_callback allOk { brightness := some 10 } 0 0).calls
      = [HwCall.setBrightness 10] ∧
    (scope_callback allOk { brightness := some 10 } 0 0).brightness = 10 ∧
    (scope_callback allOk { brightness := some 10 } 0 0).err = none ∧
    (scope_callback allOk { brightness := some 25 }
        (scope_callback allOk { brightness := some 10 } 0 0).focus
        (scope_callback allOk { brightness := some 10 } 0 0).brightness).calls
      = [HwCall.setBrightness 15] ∧
    (scope_callback allOk { brightness := some 25 }
        (scope_callback allOk { brightness := some 10 } 0 0).focus
        (scope_callback allOk { brightness := some 10 } 0 0).brightness).brightness
      = 25 :=
  brightness_delta_is_difference allOk 0 0 10 25 rfl

/-- C10: a command whose `mag` is a key of the standard table but whose
`mag_mode` has no `MAG_MODES` entry (absent, or any string other than
"MAG1"/"MAG2"/"LM") selects the standard table, passes the membership
check, and then dies with the `KeyError` from `MAG_MODES[msg.mag_mode]`
— raised while evaluating the argument, so before any mode-select or
selector hardware call and before any warning; only the fields processed
earlier in the handler's fixed order reached the hardware. -/
theorem unrecognised_mag_mode_keyerror (hw : HwBehavior) (msg : ScopeMsg)
    (focus0 brightness0 : ℤ) (m sel : ℕ)
    (hm : msg.mag = some m)
    (hts : MAG_TABLE.lookup m = some sel)
    (hmm : MAG_MODES msg.mag_mode = none)
    (hf : msg.focus = none ∨ hw.focusOk = true)
    (hb : msg.brightness = none ∨ hw.brightnessOk = true) :
    (scope_callback hw msg focus0 brightness0).err = some PyError.keyError ∧
    (scope_callback hw msg focus0 brightness0).calls =
      (match msg.focus with
       | none => []
       | some f => [HwCall.setObjFocus (f - focus0)]) ++
      (match msg.brightness with
       | none => []
       | some b => [HwCall.setBrightness (b - brightness0)]) ∧
    (scope_callback hw msg focus0 brightness0).warnings = 0 ∧
    (scope_callback hw msg focus0 brightness0).focus = focus0 ∧
    (scope_callback hw msg focus0 brightness0).statusSent = false := by
  have hlm : msg.mag_mode ≠ some "LM" := by
    intro h
    rw [h] at hmm
    simp [MAG_MODES] at hmm
  have hsc : scope_callback hw msg focus0 brightness0 =
      skipOnErr (recordStep msg) (skipOnErr (screenStep hw msg)
        (skipOnErr (offsetStep hw msg) (skipOnErr (spotStep hw msg)
          (skipOnErr (magStep hw msg) (skipOnErr (brightnessStep hw msg)
            (focusStep hw msg { focus := focus0, brightness := brightness0 })))))) :=
    rfl
  rw [hsc, firstTwo_steps hw msg focus0 brightness0 hf hb]
  simp [skipOnErr, magStep, hm, hts, hmm, if_neg hlm]

/-- C10 (witness): `{brightness: 3, mag: 2000}` with no `mag_mode`
field — the standard table contains 2000, yet the command fails with the
key-lookup error, the only hardware call being the brightness delta. -/
theorem unrecognised_mag_mode_keyerror_witness :
    (scope_callback allOk { brightness := some 3, mag := some 2000 } 0 0).err
      = some PyError.keyError ∧
    (scope_callback allOk { brightness := some 3, mag := some 2000 } 0 0).calls
      = [HwCall.setBrightness (3 - 0)] ∧
    (scope_callback allOk { brightness := some 3, mag := some 2000 } 0 0).warnings
      = 0 ∧
    (scope_callback allOk { brightness := some 3, mag := some 2000 } 0 0).focus
      = 0 ∧
    (scope_callback allOk { brightness := some 3, mag := some 2000 } 0 0).statusSent
      = false :=
  unrecognised_mag_mode_keyerror allOk { brightness := some 3, mag := some 2000 }
    0 0 2000 0 rfl rfl rfl (Or.inl rfl) (Or.inr rfl)

/-- C5: one-tick hysteresis of the control loop.  If `in_motion` holds
on tick `N`, the fast period (1/50 s) is chosen on tick `N` and still on
tick `N+1` even when motion has stopped, and the slow period (1 s)
returns on tick `N+2` when motion stays absent; in general the period
of a tick is fast iff `in_motion` on that tick or the latch from the
previous tick holds, and the latch is then reset to exactly this tick's
`in_motion`. -/
theorem fast_period_hysteresis (inm : ℕ → Bool) (w0 : Bool) (N n : ℕ)
    (hN : inm N = true) :
    period_trace inm w0 N = 1 / 50 ∧
    period_trace inm w0 (N + 1) = 1 / 50 ∧
    (inm (N + 1) = false → inm (N + 2) = false →
      period_trace inm w0 (N + 2) = 1) ∧
    (period_trace inm w0 n = 1 / 50 ↔ (inm n || latch_trace inm w0 n) = true) ∧
    latch_trace inm w0 (n + 1) = inm n := by
  refine ⟨?_, ?_, ?_, ?_, ?_⟩
  · simp [period_trace, run_once, hN]
  · have hl : latch_trace inm w0 (N + 1) = true := by
      simp [latch_trace, run_once, hN]
    simp [period_trace, run_once, hl]
  · intro h1 h2
    have hl : latch_trace inm w0 (N + 2) = false := by
      simp [latch_trace, run_once, h1]
    simp [period_trace, run_once, hl, h2]
  · rcases Bool.eq_false_or_eq_true (inm n || latch_trace inm w0 n) with h | h
    · rw [period_trace, run_once]
      simp only [h]
      norm_num
    · simp [period_trace, run_once, h]
  · simp [latch_trace, run_once]

/-- C5 (witness): motion on tick 0 only, latch initially clear — fast
on ticks 0 and 1, slow again on tick 2; the per-tick characterisation at
tick 3. -/
theorem fast_period_hysteresis_witness :
    period_trace (fun k => decide (k = 0)) false 0 = 1 / 50 ∧
    period_trace (fun k => decide (k = 0)) false (0 + 1) = 1 / 50 ∧
    ((fun k => decide (k = 0)) (0 + 1) = false →
      (fun k => decide (k = 0)) (0 + 2) = false →
      period_trace (fun k => decide (k = 0)) false (0 + 2) = 1) ∧
    (period_trace (fun k => decide (k = 0)) false 3 = 1 / 50 ↔
      ((fun k => decide (k = 0)) 3 ||
        latch_trace (fun k => decide (k = 0)) false 3) = true) ∧
    latch_trace (fun k => decide (k = 0)) false (3 + 1)
      = (fun k => decide (k = 0)) 3 :=
  fast_period_hysteresis (fun k => decide (k = 0)) false 0 3 rfl

/-- C8: one `stage_status` call publishes exactly two messages — the
translation message with integer-truncated coordinates of the readback
it took, and the rotation message with the tilt readback converted to
radians plus the constant eucentric height 0 — and both carry the same
`in_motion` boolean, evaluated once (at one `GetPos` readback, the one
following the coordinate readback in the stream), not recomputed
between the two publications. -/
theorem stage_status_two_messages_one_verdict (trans_tol rot_tol : ℚ)
    (sp : StageSetpoint) (rbs : ℕ → Readback) (k : ℕ) :
    (stage_status trans_tol rot_tol sp rbs k).1.length = 2 ∧
    (stage_status trans_tol rot_tol sp rbs k).1 =
      [PubMsg.motionStatus (pyInt (rbs k).x) (pyInt (rbs k).y) (pyInt (rbs k).z)
         (in_motion trans_tol rot_tol sp (rbs (k + 1))),
       PubMsg.rotationStatus ((rbs k).tx * piQ / 180) ((rbs k).ty * piQ / 180) 0
         (in_motion trans_tol rot_tol sp (rbs (k + 1)))] ∧
    (stage_status trans_tol rot_tol sp rbs k).1.map PubMsg.inMotionFlag =
      [in_motion trans_tol rot_tol sp (rbs (k + 1)),
       in_motion trans_tol rot_tol sp (rbs (k + 1))] :=
  ⟨rfl, rfl, rfl⟩

/-- C9: frame property of the translation handler — a command carrying
only `z` issues exactly the one `SetZ` call and changes only the `z`
setpoint (and the sticky latch); in general an absent axis is never
written and gets no hardware call. -/
theorem motion_absent_axes_untouched (sp : StageSetpoint) (msg : MotionMsg)
    (z : ℚ) :
    motion_callback { x := none, y := none, z := some z } sp =
      { sp := { sp with z := z }, calls := [HwCall.setZ z],
        was_in_motion := true } ∧
    (msg.x = none → (motion_callback msg sp).sp.x = sp.x) ∧
    (msg.y = none → (motion_callback msg sp).sp.y = sp.y) ∧
    (msg.z = none → (motion_callback msg sp).sp.z = sp.z) ∧
    (motion_callback msg sp).sp.tx = sp.tx ∧
    (motion_callback msg sp).sp.ty = sp.ty ∧
    (msg.x = none → msg.y = none → (motion_callback msg sp).calls =
      (match msg.z with
       | none => []
       | some v => [HwCall.setZ v])) := by
  refine ⟨by simp [motion_callback], ?_, ?_, ?_, ?_, ?_, ?_⟩ <;>
    cases hx : msg.x <;> cases hy : msg.y <;> cases hz : msg.z <;>
      simp [motion_callback, hx, hy, hz]

/-- C9 (witness): the frame statement at a concrete setpoint and a
command carrying only `z = 7` (and the z-only equation at `z = 9`). -/
theorem motion_absent_axes_untouched_witness :
    motion_callback { x := none, y := none, z := some 9 } ⟨1, 2, 3, 4, 5⟩ =
      { sp := ⟨1, 2, 9, 4, 5⟩, calls := [HwCall.setZ 9],
        was_in_motion := true } ∧
    ((none : Option ℚ) = none →
      (motion_callback { x := none, y := none, z := some 7 } ⟨1, 2, 3, 4, 5⟩).sp.x
        = 1) ∧
    ((none : Option ℚ) = none →
      (motion_callback { x := none, y := none, z := some 7 } ⟨1, 2, 3, 4, 5⟩).sp.y
        = 2) ∧
    ((some (7 : ℚ) : Option ℚ) = none →
      (motion_callback { x := none, y := none, z := some 7 } ⟨1, 2, 3, 4, 5⟩).sp.z
        = 3) ∧
    (motion_callback { x := none, y := none, z := some 7 } ⟨1, 2, 3, 4, 5⟩).sp.tx
      = 4 ∧
    (motion_callback { x := none, y := none, z := some 7 } ⟨1, 2, 3, 4, 5⟩).sp.ty
      = 5 ∧
    ((none : Option ℚ) = none → (none : Option ℚ) = none →
      (motion_callback { x := none, y := none, z := some 7 } ⟨1, 2, 3, 4, 5⟩).calls
        = [HwCall.setZ 7]) :=
  motion_absent_axes_untouched ⟨1, 2, 3, 4, 5⟩
    { x := none, y := none, z := some 7 } 9

end PyJEMService
